import Mathlib

/-!
Verification of the FusionScriptsForPyChrono repository: a shallow embedding
of the JSON interchange utilities (`utils.py`), the PyChrono loader
(`pychrono_loader.py`) and the cable CSV exporter (`CableExport.py`),
together with proofs of the specified properties.

Numeric values are modelled over exact rationals (`ℚ`); Python exceptions are
modelled with `Except PyExc`.
-/

namespace FusionScripts

/-- JSON values as produced by Python's `json.load`: `None`, booleans, numbers,
strings, lists, and dicts with string keys (JSON object keys are strings).
Python's distinction between int and float is conflated into one exact `ℚ`
number, which is irrelevant to every property proved here. -/
inductive JValue where
  | null
  | bool (b : Bool)
  | num (q : ℚ)
  | str (s : String)
  | arr (items : List JValue)
  | obj (fields : List (String × JValue))
deriving Repr

/-- Python exceptions raisable by the embedded code (directly or by the
operations it performs). Every one of these classes derives from `Exception`
in Python's hierarchy. -/
inductive PyExc where
  | typeError (msg : String)
  | attributeError (msg : String)
  | keyError (key : String)
  | valueError (msg : String)
  | jsonDecodeError (msg : String)
  | fileNotFoundError (msg : String)
  | osError (msg : String)
deriving Repr, DecidableEq

/-- Whether the exception class derives from Python's `Exception` (and is hence
caught by an `except Exception` clause). True for every class the embedded
code can raise; only `BaseException`-level classes such as `KeyboardInterrupt`
would be `false`, and nothing here raises those. -/
def PyExc.derivesFromException : PyExc → Bool
  | .typeError _ => true
  | .attributeError _ => true
  | .keyError _ => true
  | .valueError _ => true
  | .jsonDecodeError _ => true
  | .fileNotFoundError _ => true
  | .osError _ => true

/-- Python truthiness (`if v:`) of a JSON-derived value: `None`, `False`, `0`,
empty string, empty list and empty dict are falsy. -/
def pyTruthy : JValue → Bool
  | .null => false
  | .bool b => b
  | .num q => decide (q ≠ 0)
  | .str s => decide (s ≠ "")
  | .arr xs => !xs.isEmpty
  | .obj fs => !fs.isEmpty

/-- First binding of `key` in an association list of dict fields (dicts coming
from `json.load` have unique keys, so first = only). -/
def lookupField : List (String × JValue) → String → Option JValue
  | [], _ => none
  | (k, v) :: rest, key => if k == key then some v else lookupField rest key

/-- Python `==` between a string (left operand) and an arbitrary value: strings
compare equal only to equal strings, and unequal (without error) to every
other type. -/
def pyStrEqValue (s : String) : JValue → Bool
  | .str t => s == t
  | _ => false

/-- Whether the first list is a prefix of the second (over characters). -/
def charsPre : List Char → List Char → Bool
  | [], _ => true
  | _ :: _, [] => false
  | a :: as, b :: bs => a == b && charsPre as bs

/-- Whether the first list occurs as a contiguous run inside the second:
Python's substring test `needle in hay` over the characters of the strings. -/
def charsInfix (needle : List Char) : List Char → Bool
  | [] => charsPre needle []
  | b :: bs => charsPre needle (b :: bs) || charsInfix needle bs

/-- Python's membership test `key in v` for a string `key`: key lookup on a
dict, element-wise `==` on a list, substring test on a string, and a
`TypeError` on non-container values. -/
def pyContains (key : String) : JValue → Except PyExc Bool
  | .obj fs => .ok (fs.any (fun p => p.1 == key))
  | .arr xs => .ok (xs.any (pyStrEqValue key))
  | .str s => .ok (charsInfix key.data s.data)
  | .null => .error (.typeError "argument of type NoneType is not iterable")
  | .bool _ => .error (.typeError "argument of type bool is not iterable")
  | .num _ => .error (.typeError "argument of type number is not iterable")

/-- Python's subscript `v[key]` for a string `key`: dict lookup (a `KeyError`
when absent), and a `TypeError` on every non-dict value. -/
def pySubscriptS (v : JValue) (key : String) : Except PyExc JValue :=
  match v with
  | .obj fs =>
      match lookupField fs key with
      | some w => .ok w
      | none => .error (.keyError key)
  | .arr _ => .error (.typeError "list indices must be integers or slices, not str")
  | .str _ => .error (.typeError "string indices must be integers")
  | _ => .error (.typeError "object is not subscriptable")

/-- Python's `v.get(key, default)`: defined on dicts only; every other value
has no `get` attribute and raises `AttributeError`. -/
def pyGetD (v : JValue) (key : String) (dflt : JValue) : Except PyExc JValue :=
  match v with
  | .obj fs => .ok ((lookupField fs key).getD dflt)
  | _ => .error (.attributeError "object has no attribute get")

/-- Python iteration `for x in v`: lists yield elements, strings yield
one-character strings, dicts yield their keys; other values are not
iterable. -/
def toIterList : JValue → Except PyExc (List JValue)
  | .arr xs => .ok xs
  | .str s => .ok (s.data.map (fun c => .str (String.mk [c])))
  | .obj fs => .ok (fs.map (fun p => .str p.1))
  | _ => .error (.typeError "object is not iterable")

/-- Numeric coercion used by Python arithmetic and by the simulation API's
double-typed setters: numbers pass through, booleans coerce to 0/1, any other
type raises `TypeError`. -/
def pyToFloat : JValue → Except PyExc ℚ
  | .num q => .ok q
  | .bool b => .ok (if b then 1 else 0)
  | _ => .error (.typeError "unsupported operand type")

/-- Python's `v / d` for a literal divisor `d` (as in `... / 1000.0`). -/
def pyDiv (v : JValue) (d : ℚ) : Except PyExc ℚ := do
  let q ← pyToFloat v
  pure (q / d)

/-- String coercion for the simulation API's string-typed setters (`SetName`)
and for `os.path.join`: only `str` values are accepted. -/
def pyToStr : JValue → Except PyExc String
  | .str s => .ok s
  | _ => .error (.typeError "expected str")

/-- Whether a JSON-derived value is hashable in Python (usable as a dict key):
lists and dicts are unhashable. -/
def isHashable : JValue → Bool
  | .arr _ => false
  | .obj _ => false
  | _ => true

/-- Python `==` restricted to hashable JSON-derived values, as used by dict key
lookup: booleans compare numerically with numbers, everything else compares
within its own type. -/
def pyKeyEq : JValue → JValue → Bool
  | .null, .null => true
  | .bool a, .bool b => a == b
  | .bool a, .num q => decide ((if a then (1 : ℚ) else 0) = q)
  | .num q, .bool b => decide (q = (if b then (1 : ℚ) else 0))
  | .num a, .num b => a == b
  | .str a, .str b => a == b
  | _, _ => false

/-- Decimal digits of the fractional part `f` (with `0 ≤ f < 1`), most
significant first, stopping at zero; `fuel` bounds the digit count (17 digits
always suffice for the shortest round-tripping decimal of a double). -/
def fracDigits : ℕ → ℚ → String
  | 0, _ => ""
  | n + 1, f =>
      if f = 0 then ""
      else
        let d : ℤ := ⌊f * 10⌋
        toString d ++ fracDigits n (f * 10 - (d : ℚ))

/-- CPython's `repr`/`str` of a float, modelled for floats whose value is an
exact short decimal (the only floats arising in this development): the
shortest round-tripping decimal of such a double is the decimal itself,
printed as integer part, a dot, and the fractional digits (a single `0` when
the value is integral). -/
def pyFloatRepr (q : ℚ) : String :=
  let sign := if q < 0 then "-" else ""
  let a := |q|
  let ip : ℤ := ⌊a⌋
  let ds := fracDigits 17 (a - (ip : ℚ))
  sign ++ toString ip ++ "." ++ (if ds = "" then "0" else ds)

/-- Python's textual rendering of a JSON-derived number: integers print
without a decimal point, floats via `pyFloatRepr` (the int/float distinction
is recovered from the denominator; no proved property inspects this text). -/
def numRepr (q : ℚ) : String :=
  if q.den = 1 then toString q.num else pyFloatRepr q

mutual

/-- Python's `repr` of a JSON-derived value, as interpolated into messages. -/
def pyRepr : JValue → String
  | .null => "None"
  | .bool b => if b then "True" else "False"
  | .num q => numRepr q
  | .str s => "\x27" ++ s ++ "\x27"
  | .arr xs => "[" ++ pyReprItems xs ++ "]"
  | .obj fs => "\x7b" ++ pyReprFields fs ++ "\x7d"

/-- Comma-separated `repr`s of list items. -/
def pyReprItems : List JValue → String
  | [] => ""
  | [v] => pyRepr v
  | v :: rest => pyRepr v ++ ", " ++ pyReprItems rest

/-- Comma-separated `key: value` `repr`s of dict fields. -/
def pyReprFields : List (String × JValue) → String
  | [] => ""
  | [(k, v)] => "\x27" ++ k ++ "\x27: " ++ pyRepr v
  | (k, v) :: rest => "\x27" ++ k ++ "\x27: " ++ pyRepr v ++ ", " ++ pyReprFields rest

end

/-- Python's `str` of a JSON-derived value (as interpolated by f-strings):
identical to `repr` except on strings, which print without quotes. -/
def pyStr : JValue → String
  | .str s => s
  | v => pyRepr v

/-! ### utils.validate_json_export -/

/-- The loop `for field in required_fields: if field not in data: return ...`
of `validate_json_export` (utils.py lines 30-33): `some` is an early return
with the failure tuple, `none` means all fields were present. -/
def checkRequired (data : JValue) : List String → Except PyExc (Option (Bool × String))
  | [] => .ok none
  | f :: rest => do
      let mem ← pyContains f data
      if !mem then
        pure (some (false, "Missing required field: " ++ f))
      else checkRequired data rest

/-- The body-validation loop of `validate_json_export` (utils.py lines 39-43),
with `i` the running `enumerate` index. -/
def checkBodies (i : ℕ) : List JValue → Except PyExc (Option (Bool × String))
  | [] => .ok none
  | body :: rest => do
      let hasName ← pyContains "name" body
      if !hasName then
        pure (some (false, "Body " ++ toString i ++ " missing 'name' field"))
      else do
        let hasMP ← pyContains "mass_properties" body
        if !hasMP then do
          let n ← pySubscriptS body "name"
          pure (some (false, "Body " ++ pyStr n ++ " missing 'mass_properties'"))
        else checkBodies (i + 1) rest

/-- The joint-validation loop of `validate_json_export` (utils.py lines
49-53), with `i` the running `enumerate` index. -/
def checkJoints (i : ℕ) : List JValue → Except PyExc (Option (Bool × String))
  | [] => .ok none
  | joint :: rest => do
      let hasName ← pyContains "name" joint
      if !hasName then
        pure (some (false, "Joint " ++ toString i ++ " missing 'name' field"))
      else do
        let hasType ← pyContains "type" joint
        if !hasType then do
          let n ← pyGetD joint "name" (.num i)
          pure (some (false, "Joint " ++ pyStr n ++ " missing 'type' field"))
        else checkJoints (i + 1) rest

/-- The structural checks of `validate_json_export` over the parsed document
(utils.py lines 29-55), i.e. the part of the `try` block after `json.load`. -/
def validate_data (data : JValue) : Except PyExc (Bool × String) := do
  match ← checkRequired data ["model_name", "bodies", "joints", "metadata"] with
  | some r => pure r
  | none => do
    let bodiesVal ← pySubscriptS data "bodies"
    match bodiesVal with
    | .arr bodies => do
        match ← checkBodies 0 bodies with
        | some r => pure r
        | none => do
          let jointsVal ← pySubscriptS data "joints"
          match jointsVal with
          | .arr joints => do
              match ← checkJoints 0 joints with
              | some r => pure r
              | none => pure (true, "Valid")
          | _ => pure (false, "joints must be a list")
    | _ => pure (false, "bodies must be a list")

/-- Outcome of `open(json_path)` followed by `json.load` — the environment-
dependent head of `validate_json_export`'s `try` block: a parsed value, a
`json.JSONDecodeError`, a `FileNotFoundError`, or another `OSError` (e.g.
`PermissionError`). -/
inductive LoadOutcome where
  | ok (data : JValue)
  | jsonDecodeError (msg : String)
  | fileNotFound
  | otherError (msg : String)
deriving Repr

/-- Message text `str(e)` of an exception, as interpolated into the
validator's failure messages. -/
def PyExc.message : PyExc → String
  | .typeError m => m
  | .attributeError m => m
  | .keyError k => "\x27" ++ k ++ "\x27"
  | .valueError m => m
  | .jsonDecodeError m => m
  | .fileNotFoundError m => m
  | .osError m => m

/-- utils.validate_json_export (utils.py lines 15-62): run the `try` block
(file read modelled by `outcome`, then the structural checks), and convert
exceptions to failure tuples through the three `except` clauses, in order:
`json.JSONDecodeError`, `FileNotFoundError`, `Exception`. An uncaught
exception would surface as `.error`. -/
def validate_json_export (json_path : String) (outcome : LoadOutcome) :
    Except PyExc (Bool × String) :=
  let tryResult : Except PyExc (Bool × String) :=
    match outcome with
    | .ok data => validate_data data
    | .jsonDecodeError m => .error (.jsonDecodeError m)
    | .fileNotFound => .error (.fileNotFoundError json_path)
    | .otherError m => .error (.osError m)
  match tryResult with
  | .ok r => .ok r
  | .error (.jsonDecodeError m) => .ok (false, "JSON parsing error: " ++ m)
  | .error (.fileNotFoundError _) => .ok (false, "File not found: " ++ json_path)
  | .error e =>
      if e.derivesFromException then .ok (false, "Validation error: " ++ e.message)
      else .error e

/-! ### utils.convert_units -/

/-- The `to_meters` conversion table of `convert_units` (utils.py lines
78-84), with each factor as an exact rational. -/
def to_meters : List (String × ℚ) :=
  [("mm", 1 / 1000), ("cm", 1 / 100), ("m", 1), ("in", 254 / 10000),
   ("ft", 3048 / 10000)]

/-- Factor lookup in the `to_meters` table. -/
def unitFactor : String → Option ℚ
  | u => (to_meters.find? (fun p => p.1 == u)).map (fun p => p.2)

/-- utils.convert_units (utils.py lines 65-93): raise `ValueError` when either
unit is not in the table, otherwise convert to meters and then to the target
unit. -/
def convert_units (value : ℚ) (from_unit to_unit : String) : Except PyExc ℚ :=
  match unitFactor from_unit, unitFactor to_unit with
  | some f, some t => .ok (value * f / t)
  | _, _ =>
      .error (.valueError
        ("Unsupported unit conversion: " ++ from_unit ++ " to " ++ to_unit))

/-! ### pychrono_loader -/

/-- Observable state of a `chrono.ChBody`. The field defaults are those of
Chrono's `ChBody` constructor, which the loader relies on for absent optional
data: unit mass, identity inertia diagonal, position at the origin, collision
disabled, not fixed. -/
structure ChBody where
  name : String := ""
  mass : ℚ := 1
  pos : ℚ × ℚ × ℚ := (0, 0, 0)
  inertiaXX : ℚ × ℚ × ℚ := (1, 1, 1)
  collide : Bool := false
  meshFile : Option String := none
  fixed : Bool := false
deriving Repr, DecidableEq

/-- The three constraint classes the loader instantiates: `ChLinkLockRevolute`
(pin), `ChLinkLockLock` (fixed) and `ChLinkLockPrismatic` (slider). -/
inductive ChLinkKind where
  | revolute
  | lock
  | prismatic
deriving Repr, DecidableEq

/-- Observable state of a constraint after `Initialize(body_one, body_two,
ChCoordsysD(origin_pos))` and `SetName`. -/
structure ChLink where
  kind : ChLinkKind
  body1 : ChBody
  body2 : ChBody
  origin : ℚ × ℚ × ℚ
  name : String := ""
deriving Repr, DecidableEq

/-- Observable state of a `chrono.ChSystemNSC`: gravity plus the bodies and
links added to it, in insertion order. -/
structure ChSystem where
  gAcc : ℚ × ℚ × ℚ := (0, 0, 0)
  bodies : List ChBody := []
  joints : List ChLink := []
deriving Repr, DecidableEq

/-- The name → entity table built by the body pass. Keys are the raw
`body_data['name']` values (Python dict keys: any hashable value). -/
abbrev BodyMap := List (JValue × ChBody)

/-- Python dict lookup `body_map.get(k)`: `TypeError` on an unhashable key,
otherwise the first entry whose key compares `==` to `k`. -/
def mapGet (m : BodyMap) (k : JValue) : Except PyExc (Option ChBody) :=
  if isHashable k then
    .ok ((m.find? (fun p => pyKeyEq p.1 k)).map (fun p => p.2))
  else .error (.typeError "unhashable type")

/-- Python dict assignment `body_map[k] = v`: `TypeError` on an unhashable
key, otherwise replace the existing binding or append a new one. -/
def mapSet (m : BodyMap) (k : JValue) (v : ChBody) : Except PyExc BodyMap :=
  if isHashable k then
    if m.any (fun p => pyKeyEq p.1 k) then
      .ok (m.map (fun p => if pyKeyEq p.1 k then (p.1, v) else p))
    else .ok (m ++ [(k, v)])
  else .error (.typeError "unhashable type")

/-- The mass-properties block of `create_body_from_data` (pychrono_loader.py
lines 87-109): when `mass_properties` is truthy, set the mass (default 1.0),
the position from `center_of_mass` if truthy (each coordinate divided by
1000), and the inertia diagonal from `moments_of_inertia` if truthy. -/
def setMassProperties (body_data : JValue) (body : ChBody) : Except PyExc ChBody := do
  let mass_props ← pyGetD body_data "mass_properties" (.obj [])
  if pyTruthy mass_props then do
    let mass ← pyToFloat (← pyGetD mass_props "mass" (.num 1))
    let body := { body with mass := mass }
    let com ← pyGetD mass_props "center_of_mass" (.obj [])
    let body ←
      if pyTruthy com then do
        let x ← pyDiv (← pyGetD com "x" (.num 0)) 1000
        let y ← pyDiv (← pyGetD com "y" (.num 0)) 1000
        let z ← pyDiv (← pyGetD com "z" (.num 0)) 1000
        pure { body with pos := (x, y, z) }
      else pure body
    let inertia ← pyGetD mass_props "moments_of_inertia" (.obj [])
    if pyTruthy inertia then do
      let xx ← pyToFloat (← pyGetD inertia "xx" (.num 1))
      let yy ← pyToFloat (← pyGetD inertia "yy" (.num 1))
      let zz ← pyToFloat (← pyGetD inertia "zz" (.num 1))
      pure { body with inertiaXX := (xx, yy, zz) }
    else pure body
  else pure body

/-- The transform block of `create_body_from_data` (pychrono_loader.py lines
112-121): when `transform` and its `translation` are truthy, overwrite the
position with the translation, each coordinate divided by 1000. -/
def applyTransform (body_data : JValue) (body : ChBody) : Except PyExc ChBody := do
  let transform ← pyGetD body_data "transform" (.obj [])
  if pyTruthy transform then do
    let translation ← pyGetD transform "translation" (.obj [])
    if pyTruthy translation then do
      let x ← pyDiv (← pyGetD translation "x" (.num 0)) 1000
      let y ← pyDiv (← pyGetD translation "y" (.num 0)) 1000
      let z ← pyDiv (← pyGetD translation "z" (.num 0)) 1000
      pure { body with pos := (x, y, z) }
    else pure body
  else pure body

/-- The geometry block of `create_body_from_data` (pychrono_loader.py lines
124-167): when `geometry_file` is truthy and the joined path exists, enable
collision and attach the mesh (the Chrono mesh/asset calls have no further
observable state here); otherwise leave the body untouched. `geomExists`
stands for `os.path.exists`, and `os.path.join` is path concatenation. -/
def loadGeometry (body_data : JValue) (geometry_dir : String)
    (geomExists : String → Bool) (body : ChBody) : Except PyExc ChBody := do
  let geom_file ← pyGetD body_data "geometry_file" .null
  if pyTruthy geom_file then do
    let fname ← pyToStr geom_file
    let stl_path := geometry_dir ++ "/" ++ fname
    if geomExists stl_path then
      pure { body with collide := true, meshFile := some stl_path }
    else pure body
  else pure body

/-- pychrono_loader.create_body_from_data (lines 70-176): build a `ChBody`,
set its name, apply the mass-properties, transform and geometry blocks, mark
it fixed when `is_fixed` is truthy, and add it to the system. -/
def create_body_from_data (body_data : JValue) (geometry_dir : String)
    (geomExists : String → Bool) (system : ChSystem) :
    Except PyExc (ChBody × ChSystem) := do
  let name ← pyToStr (← pySubscriptS body_data "name")
  let body : ChBody := { name := name }
  let body ← setMassProperties body_data body
  let body ← applyTransform body_data body
  let body ← loadGeometry body_data geometry_dir geomExists body
  let is_fixed ← pyGetD body_data "is_fixed" (.bool false)
  let body := if pyTruthy is_fixed then { body with fixed := true } else body
  pure (body, { system with bodies := system.bodies ++ [body] })

/-- Short-circuiting Python `or` over two fallible boolean tests. -/
def orM (a b : Except PyExc Bool) : Except PyExc Bool := do
  if (← a) then pure true else b

/-- pychrono_loader.create_joint_from_data (lines 179-236): read the type and
the two body names, return no joint when either name is falsy or unresolved,
otherwise convert the origin (divided by 1000), classify the type by
substring match (Revolute, then Rigid, then Slider), and when a class
matched, name the joint and add it to the system. -/
def create_joint_from_data (joint_data : JValue) (body_map : BodyMap)
    (system : ChSystem) : Except PyExc (Option ChLink × ChSystem) := do
  let joint_type ← pyGetD joint_data "type" (.str "")
  let body_one_name ← pyGetD joint_data "body_one" .null
  let body_two_name ← pyGetD joint_data "body_two" .null
  if !pyTruthy body_one_name || !pyTruthy body_two_name then
    pure (none, system)
  else do
    let body_one ← mapGet body_map body_one_name
    let body_two ← mapGet body_map body_two_name
    match body_one, body_two with
    | some b1, some b2 => do
        let origin ← pyGetD joint_data "origin" (.obj [])
        let ox ← pyDiv (← pyGetD origin "x" (.num 0)) 1000
        let oy ← pyDiv (← pyGetD origin "y" (.num 0)) 1000
        let oz ← pyDiv (← pyGetD origin "z" (.num 0)) 1000
        let origin_pos := (ox, oy, oz)
        let kind ← do
          if ← orM (pyContains "Revolute" joint_type)
              (pyContains "RevoluteJointType" joint_type) then
            pure (some ChLinkKind.revolute)
          else if ← orM (pyContains "Rigid" joint_type)
              (pyContains "RigidJointType" joint_type) then
            pure (some ChLinkKind.lock)
          else if ← orM (pyContains "Slider" joint_type)
              (pyContains "SliderJointType" joint_type) then
            pure (some ChLinkKind.prismatic)
          else
            pure none
        match kind with
        | some k => do
            let jname ← pyToStr (← pyGetD joint_data "name" (.str ""))
            let link : ChLink :=
              { kind := k, body1 := b1, body2 := b2, origin := origin_pos,
                name := jname }
            pure (some link, { system with joints := system.joints ++ [link] })
        | none => pure (none, system)
    | _, _ => pure (none, system)

/-- The body pass of `load_model_from_json` (pychrono_loader.py lines 57-61):
create each body and register it in the name table under `body_data['name']`
(`if body:` is always true, a `ChBody` object being truthy). -/
def bodyPass (geometry_dir : String) (geomExists : String → Bool) :
    List JValue → BodyMap → ChSystem → Except PyExc (BodyMap × ChSystem)
  | [], m, sys => .ok (m, sys)
  | d :: rest, m, sys => do
      let (body, sys') ← create_body_from_data d geometry_dir geomExists sys
      let nameKey ← pySubscriptS d "name"
      let m' ← mapSet m nameKey body
      bodyPass geometry_dir geomExists rest m' sys'

/-- The joint pass of `load_model_from_json` (pychrono_loader.py lines
64-65). -/
def jointPass (body_map : BodyMap) :
    List JValue → ChSystem → Except PyExc ChSystem
  | [], sys => .ok sys
  | d :: rest, sys => do
      let (_, sys') ← create_joint_from_data d body_map sys
      jointPass body_map rest sys'

/-- pychrono_loader.load_model_from_json (lines 30-67) over the parsed
document: create the system with gravity (0, -9.81, 0), run the body pass,
then the joint pass. The file read is modelled upstream (a missing or
malformed JSON file is fatal and aborts before this point); `geometry_dir`
arrives resolved. -/
def load_model_from_json (model_data : JValue) (geometry_dir : String)
    (geomExists : String → Bool) : Except PyExc ChSystem := do
  let system : ChSystem := { gAcc := (0, -981 / 100, 0) }
  let bodiesList ← toIterList (← pyGetD model_data "bodies" (.arr []))
  let (body_map, system) ← bodyPass geometry_dir geomExists bodiesList [] system
  let jointsList ← toIterList (← pyGetD model_data "joints" (.arr []))
  jointPass body_map jointsList system

/-! ### CableExport -/

/-- A point in world coordinates (Fusion's default unit: centimeters). -/
structure Point3 where
  x : ℚ
  y : ℚ
  z : ℚ
deriving Repr, DecidableEq

/-- A selected Fusion entity: a `SketchLine` with its start and end world
points, or any other entity type (skipped by the exporter). -/
inductive FusionEntity where
  | sketchLine (startPoint endPoint : Point3)
  | other
deriving Repr

/-- The CSV row written for one sketch line (CableExport.py lines 48-61):
each world coordinate divided by 100 (centimeters to meters), the six values
formatted by the f-string and comma-separated. -/
def cableRow (s e : Point3) : String :=
  pyFloatRepr (s.x / 100) ++ "," ++ pyFloatRepr (s.y / 100) ++ "," ++
  pyFloatRepr (s.z / 100) ++ "," ++ pyFloatRepr (e.x / 100) ++ "," ++
  pyFloatRepr (e.y / 100) ++ "," ++ pyFloatRepr (e.z / 100)

/-- The lines written to the CSV file by `CableExport.run` (lines 37-62), in
order and without the trailing newlines: the header, then one row per
selected entity that is a `SketchLine`. -/
def cableCsvLines (selections : List FusionEntity) : List String :=
  "StartX,StartY,StartZ,EndX,EndY,EndZ" ::
    selections.filterMap (fun ent =>
      match ent with
      | .sketchLine s e => some (cableRow s e)
      | .other => none)

/-- Specification-side helper: the first of the four required fields (in
declaration order) that has no binding in an object document. -/
def firstMissingField (fields : List (String × JValue)) : Option String :=
  ["model_name", "bodies", "joints", "metadata"].find?
    (fun k => (lookupField fields k).isNone)

/-- Specification-side helper: the body reference `k` of a joint record is
absent or is a name (a string), per the schema's foreign-key shape. -/
def refIsStrOrAbsent (j : List (String × JValue)) (k : String) : Prop :=
  lookupField j k = none ∨ ∃ s, lookupField j k = some (.str s)

/-- Specification-side helper: the body reference `k` of a joint record is
absent, or names a body with no entry in the name table. -/
def refUnresolved (j : List (String × JValue)) (m : BodyMap) (k : String) : Prop :=
  lookupField j k = none ∨
    ∃ s, lookupField j k = some (.str s) ∧ mapGet m (.str s) = .ok none

/-! ### Shared lemmas -/

/-- Inversion of a successful `Except` bind. -/
theorem bind_ok {α β : Type} {x : Except PyExc α} {f : α → Except PyExc β} {r : β}
    (h : x >>= f = .ok r) : ∃ a, x = .ok a ∧ f a = .ok r := by
  cases x with
  | error e => exact Except.noConfusion h
  | ok a => exact ⟨a, rfl, h⟩

/-- Reduction of `Except` bind on a success value. -/
@[simp] theorem ok_bind {α β : Type} (a : α) (f : α → Except PyExc β) :
    (Except.ok a >>= f) = f a := rfl

/-- Reduction of `Except` bind on an error value. -/
@[simp] theorem error_bind {α β : Type} (e : PyExc) (f : α → Except PyExc β) :
    ((Except.error e : Except PyExc α) >>= f) = .error e := rfl

/-- Reduction of `pure` in the `Except` monad. -/
@[simp] theorem pure_eq_ok {α : Type} (a : α) :
    (pure a : Except PyExc α) = .ok a := rfl

/-- A dict has a binding for `k` exactly when `any` finds a field named `k`
(the reduction of Python's `k in dict` to the lookup used elsewhere). -/
theorem any_key_eq_lookup_isSome (fields : List (String × JValue)) (k : String) :
    fields.any (fun p => p.1 == k) = (lookupField fields k).isSome := by
  induction fields with
  | nil => rfl
  | cons p rest ih =>
      obtain ⟨k', v⟩ := p
      by_cases h : k' == k <;> simp [lookupField, h, ih]

/-- A unit is absent from the `to_meters` table exactly when it is outside
the supported set. -/
theorem unitFactor_eq_none_iff (u : String) :
    unitFactor u = none ↔ u ∉ ["mm", "cm", "m", "in", "ft"] := by
  constructor
  · intro h hmem
    fin_cases hmem <;> simp [unitFactor, to_meters, List.find?] at h
  · intro h
    simp only [List.mem_cons, List.not_mem_nil, or_false, not_or] at h
    obtain ⟨h1, h2, h3, h4, h5⟩ := h
    simp only [unitFactor, to_meters, Option.map_eq_none', List.find?_eq_none]
    intro p hp
    simp only [List.mem_cons, List.not_mem_nil, or_false] at hp
    rcases hp with rfl | rfl | rfl | rfl | rfl <;> simp only [beq_iff_eq]
    · exact fun he => h1 he.symm
    · exact fun he => h2 he.symm
    · exact fun he => h3 he.symm
    · exact fun he => h4 he.symm
    · exact fun he => h5 he.symm

/-- Every factor in the `to_meters` table is nonzero. -/
theorem unitFactor_ne_zero (u : String) (f : ℚ) (h : unitFactor u = some f) :
    f ≠ 0 := by
  simp only [unitFactor, Option.map_eq_some'] at h
  obtain ⟨p, hp, rfl⟩ := h
  have hmem := List.mem_of_find?_eq_some hp
  simp only [to_meters, List.mem_cons, List.not_mem_nil, or_false] at hmem
  rcases hmem with rfl | rfl | rfl | rfl | rfl <;> norm_num

/-- C4: for every value and every pair of supported units, converting from A
to B and back from B to A returns exactly the original value (over the exact
rationals modelling the float computation). -/
theorem convert_units_round_trip (x : ℚ) (A B : String)
    (hA : A ∈ ["mm", "cm", "m", "in", "ft"])
    (hB : B ∈ ["mm", "cm", "m", "in", "ft"]) :
    (convert_units x A B) >>= (fun y => convert_units y B A) = .ok x := by
  obtain ⟨f, hf⟩ := Option.ne_none_iff_exists'.mp
    (fun hn => absurd hA ((unitFactor_eq_none_iff A).mp hn))
  obtain ⟨t, ht⟩ := Option.ne_none_iff_exists'.mp
    (fun hn => absurd hB ((unitFactor_eq_none_iff B).mp hn))
  have hf0 := unitFactor_ne_zero A f hf
  have ht0 := unitFactor_ne_zero B t ht
  simp only [convert_units, hf, ht, ok_bind, Except.ok.injEq]
  field_simp

/-- Witness for C4 at a concrete input. -/
theorem convert_units_round_trip_w :
    ("in" ∈ ["mm", "cm", "m", "in", "ft"]) ∧
    (convert_units 7 "in" "cm") >>= (fun y => convert_units y "cm" "in") =
      .ok 7 :=
  ⟨by decide, convert_units_round_trip 7 "in" "cm" (by decide) (by decide)⟩

/-- C5: convert_units raises `ValueError` exactly when one of the units is
outside the supported set, and on supported units returns the value times
the ratio of the two meter factors. -/
theorem convert_units_spec (v : ℚ) (A B : String) :
    ((∃ e, convert_units v A B = .error e) ↔
      A ∉ ["mm", "cm", "m", "in", "ft"] ∨ B ∉ ["mm", "cm", "m", "in", "ft"]) ∧
    (∀ f t, unitFactor A = some f → unitFactor B = some t →
      convert_units v A B = .ok (v * (f / t))) := by
  have hok : ∀ f t, unitFactor A = some f → unitFactor B = some t →
      convert_units v A B = .ok (v * (f / t)) := by
    intro f t hf ht
    simp [convert_units, hf, ht, mul_div_assoc]
  refine ⟨⟨?_, ?_⟩, hok⟩
  · rintro ⟨e, he⟩
    by_contra hcon
    push_neg at hcon
    obtain ⟨hAin, hBin⟩ := hcon
    obtain ⟨f, hf⟩ := Option.ne_none_iff_exists'.mp
      (fun hn => (unitFactor_eq_none_iff A).mp hn hAin)
    obtain ⟨t, ht⟩ := Option.ne_none_iff_exists'.mp
      (fun hn => (unitFactor_eq_none_iff B).mp hn hBin)
    rw [hok f t hf ht] at he
    exact Except.noConfusion he
  · intro h
    refine ⟨.valueError ("Unsupported unit conversion: " ++ A ++ " to " ++ B), ?_⟩
    have h2 : unitFactor A = none ∨ unitFactor B = none := by
      rcases h with h | h
      · exact Or.inl ((unitFactor_eq_none_iff A).mpr h)
      · exact Or.inr ((unitFactor_eq_none_iff B).mpr h)
    rcases h2 with hA | hB
    · cases hB : unitFactor B <;> simp [convert_units, hA, hB]
    · cases hA : unitFactor A <;> simp [convert_units, hA, hB]

/-- Witness for C5 at concrete inputs: an unsupported unit raises, a
supported pair returns the scaled value. -/
theorem convert_units_spec_w :
    (∃ e, convert_units 2 "mm" "km" = .error e) ∧
    convert_units 2 "mm" "cm" = .ok (2 * ((1 / 1000) / (1 / 100))) :=
  ⟨((convert_units_spec 2 "mm" "km").1).mpr (Or.inr (by decide)),
   (convert_units_spec 2 "mm" "cm").2 (1 / 1000) (1 / 100)
     (by simp [unitFactor, to_meters, List.find?])
     (by simp [unitFactor, to_meters, List.find?])⟩

/-- C7: for every object document missing at least one of the four required
keys, validation fails with the message naming the first missing field in
declaration order (model_name, bodies, joints, metadata); no later check
contributes to the result. -/
theorem validate_missing_field (fields : List (String × JValue)) (f : String)
    (h : firstMissingField fields = some f) :
    validate_data (.obj fields) = .ok (false, "Missing required field: " ++ f) := by
  cases hm1 : lookupField fields "model_name" with
  | none =>
      have hf : f = "model_name" := by
        exact (by simpa [firstMissingField, List.find?, hm1] using h : "model_name" = f).symm
      subst hf
      simp [validate_data, checkRequired, pyContains, any_key_eq_lookup_isSome, hm1]
  | some v1 =>
      cases hm2 : lookupField fields "bodies" with
      | none =>
          have hf : f = "bodies" := by
            exact (by simpa [firstMissingField, List.find?, hm1, hm2] using h : "bodies" = f).symm
          subst hf
          simp [validate_data, checkRequired, pyContains, any_key_eq_lookup_isSome,
            hm1, hm2]
      | some v2 =>
          cases hm3 : lookupField fields "joints" with
          | none =>
              have hf : f = "joints" := by
                exact (by simpa [firstMissingField, List.find?, hm1, hm2, hm3] using h : "joints" = f).symm
              subst hf
              simp [validate_data, checkRequired, pyContains,
                any_key_eq_lookup_isSome, hm1, hm2, hm3]
          | some v3 =>
              cases hm4 : lookupField fields "metadata" with
              | none =>
                  have hf : f = "metadata" := by
                    exact (by simpa [firstMissingField, List.find?, hm1, hm2, hm3, hm4] using h : "metadata" = f).symm
                  subst hf
                  simp [validate_data, checkRequired, pyContains,
                    any_key_eq_lookup_isSome, hm1, hm2, hm3, hm4]
              | some v4 =>
                  simp [firstMissingField, List.find?, hm1, hm2, hm3, hm4] at h

/-- Witness for C7: the empty document is missing `model_name` first. -/
theorem validate_missing_field_w :
    firstMissingField [] = some "model_name" ∧
    validate_data (.obj []) = .ok (false, "Missing required field: model_name") :=
  ⟨rfl, validate_missing_field [] "model_name" rfl⟩

/-- C8: a document holding all four required keys whose `bodies` value is not
a list fails with exactly "bodies must be a list", a message distinct from
every missing-field message. -/
theorem validate_bodies_not_list (fields : List (String × JValue)) (v : JValue)
    (h1 : (lookupField fields "model_name").isSome)
    (h2 : lookupField fields "bodies" = some v)
    (h3 : (lookupField fields "joints").isSome)
    (h4 : (lookupField fields "metadata").isSome)
    (h5 : ∀ xs, v ≠ .arr xs) :
    validate_data (.obj fields) = .ok (false, "bodies must be a list") ∧
    ∀ f : String, "bodies must be a list" ≠ "Missing required field: " ++ f := by
  constructor
  · obtain ⟨v1, hm1⟩ := Option.isSome_iff_exists.mp h1
    obtain ⟨v3, hm3⟩ := Option.isSome_iff_exists.mp h3
    obtain ⟨v4, hm4⟩ := Option.isSome_iff_exists.mp h4
    cases v with
    | arr xs => exact absurd rfl (h5 xs)
    | null =>
        simp [validate_data, checkRequired, pyContains, any_key_eq_lookup_isSome,
          hm1, h2, hm3, hm4, pySubscriptS]
    | bool b =>
        simp [validate_data, checkRequired, pyContains, any_key_eq_lookup_isSome,
          hm1, h2, hm3, hm4, pySubscriptS]
    | num q =>
        simp [validate_data, checkRequired, pyContains, any_key_eq_lookup_isSome,
          hm1, h2, hm3, hm4, pySubscriptS]
    | str s =>
        simp [validate_data, checkRequired, pyContains, any_key_eq_lookup_isSome,
          hm1, h2, hm3, hm4, pySubscriptS]
    | obj fs =>
        simp [validate_data, checkRequired, pyContains, any_key_eq_lookup_isSome,
          hm1, h2, hm3, hm4, pySubscriptS]
  · intro f hEq
    have hlen := congrArg String.length hEq
    rw [String.length_append] at hlen
    have e1 : "bodies must be a list".length = 21 := by decide
    have e2 : "Missing required field: ".length = 24 := by decide
    rw [e1, e2] at hlen
    omega

/-- Witness for C8: a document whose `bodies` value is the number 5. -/
theorem validate_bodies_not_list_w :
    validate_data (.obj [("model_name", .str "M"), ("bodies", .num 5),
        ("joints", .arr []), ("metadata", .obj [])]) =
      .ok (false, "bodies must be a list") ∧
    "bodies must be a list" ≠ "Missing required field: bodies" := by
  have h := validate_bodies_not_list
    [("model_name", .str "M"), ("bodies", .num 5), ("joints", .arr []),
     ("metadata", .obj [])] (.num 5) (by rfl) (by rfl) (by rfl) (by rfl)
    (fun xs hx => JValue.noConfusion hx)
  exact ⟨h.1, h.2 "bodies"⟩

/-- C10: validate_json_export returns a (Bool, String) pair for every path
and every outcome of reading and parsing the file: each exception its body
can raise derives from `Exception` and is converted to a failure tuple by
the handlers, so no exception propagates. -/
theorem validate_json_export_total (json_path : String) (outcome : LoadOutcome) :
    ∃ r : Bool × String, validate_json_export json_path outcome = .ok r := by
  cases outcome with
  | ok data =>
      cases hv : validate_data data with
      | ok r => exact ⟨r, by simp [validate_json_export, hv]⟩
      | error e =>
          cases e with
          | jsonDecodeError m =>
              exact ⟨(false, "JSON parsing error: " ++ m),
                by simp [validate_json_export, hv]⟩
          | fileNotFoundError m =>
              exact ⟨(false, "File not found: " ++ json_path),
                by simp [validate_json_export, hv]⟩
          | typeError m =>
              exact ⟨(false, "Validation error: " ++ m),
                by simp [validate_json_export, hv, PyExc.derivesFromException,
                  PyExc.message]⟩
          | attributeError m =>
              exact ⟨(false, "Validation error: " ++ m),
                by simp [validate_json_export, hv, PyExc.derivesFromException,
                  PyExc.message]⟩
          | keyError k =>
              exact ⟨(false, "Validation error: " ++ ("'" ++ k ++ "'")),
                by simp [validate_json_export, hv, PyExc.derivesFromException,
                  PyExc.message]⟩
          | valueError m =>
              exact ⟨(false, "Validation error: " ++ m),
                by simp [validate_json_export, hv, PyExc.derivesFromException,
                  PyExc.message]⟩
          | osError m =>
              exact ⟨(false, "Validation error: " ++ m),
                by simp [validate_json_export, hv, PyExc.derivesFromException,
                  PyExc.message]⟩
  | jsonDecodeError m => exact ⟨_, rfl⟩
  | fileNotFound => exact ⟨_, rfl⟩
  | otherError m => exact ⟨_, rfl⟩

/-- The fractional digits of zero are empty at every fuel. -/
theorem fracDigits_zero (n : ℕ) : fracDigits n 0 = "" := by
  cases n with
  | zero => rfl
  | succ m => simp [fracDigits]

/-- pyFloatRepr prints a natural number value as its digits followed by
".0" (the Python repr of an integral float). -/
theorem pyFloatRepr_natCast (n : ℕ) :
    pyFloatRepr (n : ℚ) = toString (n : ℤ) ++ ".0" := by
  have h0 : ¬((n : ℚ) < 0) := not_lt.mpr (by positivity)
  have h2 : |(n : ℚ)| = (n : ℚ) := abs_of_nonneg (by positivity)
  have h3 : ⌊(n : ℚ)⌋ = (n : ℤ) := Int.floor_natCast n
  simp [pyFloatRepr, h0, h2, h3, fracDigits_zero]
  rw [String.append_assoc]
  rfl

/-- C9: exporting one selected line segment with start (100, 200, 300) and
end (400, 500, 600) in centimeter source units writes, after the header
line, exactly the row "1.0,2.0,3.0,4.0,5.0,6.0" — every coordinate divided
by 100. -/
theorem cable_csv_two_point_row :
    cableCsvLines [.sketchLine ⟨100, 200, 300⟩ ⟨400, 500, 600⟩] =
      ["StartX,StartY,StartZ,EndX,EndY,EndZ", "1.0,2.0,3.0,4.0,5.0,6.0"] := by
  have e : ∀ n : ℕ, pyFloatRepr ((n : ℕ) : ℚ) = toString (n : ℤ) ++ ".0" :=
    pyFloatRepr_natCast
  have e1 : pyFloatRepr (1 : ℚ) = "1.0" := by
    rw [show (1 : ℚ) = ((1 : ℕ) : ℚ) by norm_num, e 1]; decide
  have e2 : pyFloatRepr (2 : ℚ) = "2.0" := by
    rw [show (2 : ℚ) = ((2 : ℕ) : ℚ) by norm_num, e 2]; decide
  have e3 : pyFloatRepr (3 : ℚ) = "3.0" := by
    rw [show (3 : ℚ) = ((3 : ℕ) : ℚ) by norm_num, e 3]; decide
  have e4 : pyFloatRepr (4 : ℚ) = "4.0" := by
    rw [show (4 : ℚ) = ((4 : ℕ) : ℚ) by norm_num, e 4]; decide
  have e5 : pyFloatRepr (5 : ℚ) = "5.0" := by
    rw [show (5 : ℚ) = ((5 : ℕ) : ℚ) by norm_num, e 5]; decide
  have e6 : pyFloatRepr (6 : ℚ) = "6.0" := by
    rw [show (6 : ℚ) = ((6 : ℕ) : ℚ) by norm_num, e 6]; decide
  simp only [cableCsvLines, cableRow, List.filterMap]
  norm_num [e1, e2, e3, e4, e5, e6]
  decide

/-- When `mass_properties` is absent or bound to an empty object, the
mass-properties block leaves the body unchanged. -/
theorem setMassProperties_absent (fields : List (String × JValue)) (body : ChBody)
    (hmp : lookupField fields "mass_properties" = none ∨
           lookupField fields "mass_properties" = some (.obj [])) :
    setMassProperties (.obj fields) body = .ok body := by
  rcases hmp with h | h <;>
    simp [setMassProperties, pyGetD, h, pyTruthy]

/-- The transform block can change only the position of a body. -/
theorem applyTransform_frame (d : JValue) (b b' : ChBody)
    (h : applyTransform d b = .ok b') :
    b'.name = b.name ∧ b'.mass = b.mass ∧ b'.inertiaXX = b.inertiaXX ∧
    b'.collide = b.collide ∧ b'.meshFile = b.meshFile ∧ b'.fixed = b.fixed := by
  unfold applyTransform at h
  obtain ⟨tv, _, h⟩ := bind_ok h
  by_cases hpt : pyTruthy tv = true
  · rw [if_pos hpt] at h
    obtain ⟨trv, _, h⟩ := bind_ok h
    by_cases hpt2 : pyTruthy trv = true
    · rw [if_pos hpt2] at h
      obtain ⟨xv, _, h⟩ := bind_ok h
      obtain ⟨x, _, h⟩ := bind_ok h
      obtain ⟨yv, _, h⟩ := bind_ok h
      obtain ⟨y, _, h⟩ := bind_ok h
      obtain ⟨zv, _, h⟩ := bind_ok h
      obtain ⟨z, _, h⟩ := bind_ok h
      have hb := Except.ok.inj h
      subst hb
      simp
    · rw [if_neg hpt2] at h
      have hb := Except.ok.inj h
      subst hb
      exact ⟨rfl, rfl, rfl, rfl, rfl, rfl⟩
  · rw [if_neg hpt] at h
    have hb := Except.ok.inj h
    subst hb
    exact ⟨rfl, rfl, rfl, rfl, rfl, rfl⟩

/-- The geometry block can change only the collision flag and the attached
mesh of a body. -/
theorem loadGeometry_frame (d : JValue) (gd : String) (g : String → Bool)
    (b b' : ChBody) (h : loadGeometry d gd g b = .ok b') :
    b'.name = b.name ∧ b'.mass = b.mass ∧ b'.pos = b.pos ∧
    b'.inertiaXX = b.inertiaXX ∧ b'.fixed = b.fixed := by
  unfold loadGeometry at h
  obtain ⟨gv, _, h⟩ := bind_ok h
  by_cases hpt : pyTruthy gv = true
  · rw [if_pos hpt] at h
    obtain ⟨fname, _, h⟩ := bind_ok h
    by_cases hex : g (gd ++ "/" ++ fname) = true
    · rw [if_pos hex] at h
      have hb := Except.ok.inj h
      subst hb
      simp
    · rw [if_neg hex] at h
      have hb := Except.ok.inj h
      subst hb
      exact ⟨rfl, rfl, rfl, rfl, rfl⟩
  · rw [if_neg hpt] at h
    have hb := Except.ok.inj h
    subst hb
    exact ⟨rfl, rfl, rfl, rfl, rfl⟩

/-- C3: a body record whose mass_properties key is absent or empty loads
with the entity defaults: mass 1.0 and inertia diagonal (1, 1, 1). -/
theorem body_mass_inertia_defaults (fields : List (String × JValue))
    (gd : String) (g : String → Bool) (sys : ChSystem) (b : ChBody)
    (sys' : ChSystem)
    (hmp : lookupField fields "mass_properties" = none ∨
           lookupField fields "mass_properties" = some (.obj []))
    (h : create_body_from_data (.obj fields) gd g sys = .ok (b, sys')) :
    b.mass = 1 ∧ b.inertiaXX = (1, 1, 1) := by
  unfold create_body_from_data at h
  obtain ⟨nv, hnv, h⟩ := bind_ok h
  obtain ⟨nm, hnm, h⟩ := bind_ok h
  obtain ⟨b1, hb1, h⟩ := bind_ok h
  rw [setMassProperties_absent fields _ hmp] at hb1
  have hb1' := Except.ok.inj hb1
  subst hb1'
  obtain ⟨b2, hb2, h⟩ := bind_ok h
  obtain ⟨b3, hb3, h⟩ := bind_ok h
  obtain ⟨fv, hfv, h⟩ := bind_ok h
  have hpair := Except.ok.inj h
  rw [Prod.mk.injEq] at hpair
  obtain ⟨hb, hsys⟩ := hpair
  obtain ⟨_, ht_mass, ht_inertia, _, _, _⟩ := applyTransform_frame _ _ _ hb2
  obtain ⟨_, hg_mass, _, hg_inertia, _⟩ := loadGeometry_frame _ _ _ _ _ hb3
  have hmass : b.mass = 1 := by
    rw [← hb]
    by_cases hf : pyTruthy fv = true
    · simp [if_pos hf, hg_mass, ht_mass]
    · simp [if_neg hf, hg_mass, ht_mass]
  have hin : b.inertiaXX = (1, 1, 1) := by
    rw [← hb]
    by_cases hf : pyTruthy fv = true
    · simp [if_pos hf, hg_inertia, ht_inertia]
    · simp [if_neg hf, hg_inertia, ht_inertia]
  exact ⟨hmass, hin⟩

/-- Witness for C3: a body record carrying only a name. -/
theorem body_mass_inertia_defaults_w :
    (({ name := "A" } : ChBody).mass = 1 ∧
     ({ name := "A" } : ChBody).inertiaXX = (1, 1, 1)) :=
  body_mass_inertia_defaults [("name", .str "A")] "geom" (fun _ => false)
    {} { name := "A" } { bodies := [{ name := "A" }] } (Or.inl rfl) rfl

/-- Counterexample to C2: a body record carrying both center_of_mass
(1000, 2000, 3000) and transform.translation (4000, 5000, 6000) loads at
position (4, 5, 6) — the translation — and not at (1, 2, 3), the converted
center of mass the claim's precedence selects. -/
theorem body_position_both_sources_cex :
    (create_body_from_data (.obj [("name", .str "C"),
        ("mass_properties", .obj [("center_of_mass",
          .obj [("x", .num 1000), ("y", .num 2000), ("z", .num 3000)])]),
        ("transform", .obj [("translation",
          .obj [("x", .num 4000), ("y", .num 5000), ("z", .num 6000)])])])
        "geom" (fun _ => false) {}).map (fun p => p.1.pos) =
      .ok ((4 : ℚ), (5 : ℚ), (6 : ℚ)) ∧
    ¬((4 : ℚ), (5 : ℚ), (6 : ℚ)) = ((1 : ℚ), (2 : ℚ), (3 : ℚ)) := by
  constructor
  · have h : (create_body_from_data (.obj [("name", .str "C"),
        ("mass_properties", .obj [("center_of_mass",
          .obj [("x", .num 1000), ("y", .num 2000), ("z", .num 3000)])]),
        ("transform", .obj [("translation",
          .obj [("x", .num 4000), ("y", .num 5000), ("z", .num 6000)])])])
        "geom" (fun _ => false) {}).map (fun p => p.1.pos) =
      .ok ((4000 : ℚ) / 1000, (5000 : ℚ) / 1000, (6000 : ℚ) / 1000) := rfl
    rw [h]
    norm_num
  · intro hEq
    rw [Prod.mk.injEq, Prod.mk.injEq] at hEq
    exact absurd hEq.1 (by norm_num)

/-- C2 as amended: the loader's position precedence is the reverse of the
claim's — when a body record carries both a truthy center_of_mass and a
truthy transform.translation, the translation (applied last) wins; the
center of mass determines the position only when no translation is present;
the two sources are never combined. -/
theorem body_position_precedence (n : String) (gd : String) (g : String → Bool)
    (sys : ChSystem) (cx cy cz tx ty tz : ℚ) :
    ((create_body_from_data (.obj [("name", .str n),
        ("mass_properties", .obj [("center_of_mass",
          .obj [("x", .num cx), ("y", .num cy), ("z", .num cz)])]),
        ("transform", .obj [("translation",
          .obj [("x", .num tx), ("y", .num ty), ("z", .num tz)])])])
        gd g sys).map (fun p => p.1.pos) =
      .ok (tx / 1000, ty / 1000, tz / 1000)) ∧
    ((create_body_from_data (.obj [("name", .str n),
        ("mass_properties", .obj [("center_of_mass",
          .obj [("x", .num cx), ("y", .num cy), ("z", .num cz)])])])
        gd g sys).map (fun p => p.1.pos) =
      .ok (cx / 1000, cy / 1000, cz / 1000)) ∧
    ((create_body_from_data (.obj [("name", .str n),
        ("transform", .obj [("translation",
          .obj [("x", .num tx), ("y", .num ty), ("z", .num tz)])])])
        gd g sys).map (fun p => p.1.pos) =
      .ok (tx / 1000, ty / 1000, tz / 1000)) :=
  ⟨rfl, rfl, rfl⟩

/-- C1: loading a document with exactly the two body records "A" and "B" and
one "RevoluteJointType" joint between them produces a system whose single
joint is a revolute joint connecting the entity registered under "A" to the
entity registered under "B", initialized at the joint origin with every
coordinate divided by 1000. -/
theorem revolute_joint_loading (ox oy oz : ℚ) (gdir : String)
    (g : String → Bool) :
    bodyPass gdir g
        [JValue.obj [("name", .str "A")], JValue.obj [("name", .str "B")]]
        [] { gAcc := (0, -981 / 100, 0) } =
      .ok ([(JValue.str "A", ({ name := "A" } : ChBody)),
            (JValue.str "B", ({ name := "B" } : ChBody))],
           { gAcc := (0, -981 / 100, 0),
             bodies := [({ name := "A" } : ChBody),
                        ({ name := "B" } : ChBody)] }) ∧
    load_model_from_json (JValue.obj [("model_name", .str "M"),
        ("bodies", .arr [JValue.obj [("name", .str "A")],
                         JValue.obj [("name", .str "B")]]),
        ("joints", .arr [JValue.obj [("name", .str "J"),
          ("type", .str "RevoluteJointType"),
          ("body_one", .str "A"), ("body_two", .str "B"),
          ("origin", .obj [("x", .num ox), ("y", .num oy), ("z", .num oz)])]]),
        ("metadata", .obj [("units", .str "mm")])]) gdir g =
      .ok { gAcc := (0, -981 / 100, 0),
            bodies := [({ name := "A" } : ChBody), ({ name := "B" } : ChBody)],
            joints := [{ kind := .revolute, body1 := { name := "A" },
                         body2 := { name := "B" },
                         origin := (ox / 1000, oy / 1000, oz / 1000),
                         name := "J" }] } :=
  ⟨rfl, rfl⟩

/-- C6: a joint record whose body_one or body_two is absent or names an
unregistered body (both references being names or absent, per the schema)
produces no joint and raises nothing, and removing such a record from the
joint list leaves the joint pass on every other record unchanged. -/
theorem joint_skip_unresolved (j : List (String × JValue)) (m : BodyMap)
    (sys : ChSystem)
    (h1 : refIsStrOrAbsent j "body_one") (h2 : refIsStrOrAbsent j "body_two")
    (hu : refUnresolved j m "body_one" ∨ refUnresolved j m "body_two") :
    create_joint_from_data (.obj j) m sys = .ok (none, sys) ∧
    ∀ (pre post : List JValue) (sys0 : ChSystem),
      jointPass m (pre ++ .obj j :: post) sys0 =
        jointPass m (pre ++ post) sys0 := by
  have key : ∀ s, create_joint_from_data (.obj j) m s = .ok (none, s) := by
    intro s
    rcases h1 with hn1 | ⟨s1, hs1⟩
    · simp [create_joint_from_data, pyGetD, hn1, pyTruthy]
    · by_cases he1 : s1 = ""
      · subst he1
        simp [create_joint_from_data, pyGetD, hs1, pyTruthy]
      · rcases h2 with hn2 | ⟨s2, hs2⟩
        · simp [create_joint_from_data, pyGetD, hs1, hn2, pyTruthy, he1]
        · by_cases he2 : s2 = ""
          · subst he2
            simp [create_joint_from_data, pyGetD, hs1, hs2, pyTruthy, he1]
          · rcases hu with hu1 | hu2
            · rcases hu1 with hn | ⟨s1', hs1', hm1⟩
              · rw [hn] at hs1
                exact absurd hs1 (by simp)
              · rw [hs1] at hs1'
                have hseq : s1 = s1' := JValue.str.inj (Option.some.inj hs1')
                subst hseq
                have hm1' :
                    List.find? (fun p => pyKeyEq p.1 (JValue.str s1)) m = none := by
                  simpa [mapGet, isHashable, Option.map_eq_none'] using hm1
                cases hf2 : List.find? (fun p => pyKeyEq p.1 (JValue.str s2)) m <;>
                  simp [create_joint_from_data, pyGetD, hs1, hs2, pyTruthy,
                    he1, he2, mapGet, isHashable, hm1', hf2]
            · rcases hu2 with hn | ⟨s2', hs2', hm2⟩
              · rw [hn] at hs2
                exact absurd hs2 (by simp)
              · rw [hs2] at hs2'
                have hseq : s2 = s2' := JValue.str.inj (Option.some.inj hs2')
                subst hseq
                have hm2' :
                    List.find? (fun p => pyKeyEq p.1 (JValue.str s2)) m = none := by
                  simpa [mapGet, isHashable, Option.map_eq_none'] using hm2
                cases hf1 : List.find? (fun p => pyKeyEq p.1 (JValue.str s1)) m <;>
                  simp [create_joint_from_data, pyGetD, hs1, hs2, pyTruthy,
                    he1, he2, mapGet, isHashable, hm2', hf1]
  refine ⟨key sys, ?_⟩
  intro pre post
  induction pre with
  | nil =>
      intro sys0
      simp [jointPass, key sys0]
  | cons d rest ih =>
      intro sys0
      simp only [List.cons_append, jointPass]
      cases hc : create_joint_from_data d m sys0 with
      | error e => simp [hc]
      | ok p =>
          obtain ⟨l, s'⟩ := p
          simp [hc, ih s']

/-- Witness for C6: a revolute joint referencing the unregistered body "X"
in a table that registers only "B" is skipped without error. -/
theorem joint_skip_unresolved_w :
    create_joint_from_data (.obj [("name", .str "JX"),
        ("type", .str "RevoluteJointType"),
        ("body_one", .str "X"), ("body_two", .str "B")])
      [(.str "B", ({ name := "B" } : ChBody))] {} = .ok (none, {}) :=
  (joint_skip_unresolved [("name", .str "JX"),
      ("type", .str "RevoluteJointType"),
      ("body_one", .str "X"), ("body_two", .str "B")]
    [(.str "B", ({ name := "B" } : ChBody))] {}
    (Or.inr ⟨"X", rfl⟩) (Or.inr ⟨"B", rfl⟩)
    (Or.inl (Or.inr ⟨"X", rfl, rfl⟩))).1

end FusionScripts
